import Mathlib

/-! Terraform provider for UrbanSportsClub webhook endpoints.

A shallow embedding of `internal/provider/provider.go` and
`internal/provider/resource.go`.

The provider is glue code around three libraries: `net/http`, `encoding/json`
and the Terraform plugin framework.  Their behaviour is the environment of the
program and is taken as a parameter (`World`): whether `http.NewRequest`
accepts a method and URL, what `http.Client.Do` answers to a request, and what
`json.Decoder.Decode` yields for a response body and a target struct.  Every
operation of the program is a function of that environment, and returns, next
to its result, the list of requests it handed to `http.Client.Do`.
-/

/-! ## Diagnostics (framework `diag` package) -/

/-- Severity of a diagnostic. -/
inductive Severity where
  | Error
  | Warning
deriving DecidableEq, Repr

/-- One user-visible diagnostic: severity, summary and detail. -/
structure Diagnostic where
  severity : Severity
  summary : String
  detail : String
deriving DecidableEq, Repr

/-- Go `Diagnostics.HasError`: some diagnostic has severity error. -/
def HasError (diags : List Diagnostic) : Bool :=
  diags.any (fun d => decide (d.severity = Severity.Error))

/-- Go `Diagnostics.AddError summary detail`. -/
def AddError (diags : List Diagnostic) (summary detail : String) : List Diagnostic :=
  diags ++ [⟨Severity.Error, summary, detail⟩]

/-! ## Framework values -/

/-- The framework type `types.String`: null, unknown, or a known value. -/
inductive TypesString where
  | Null
  | Unknown
  | Value (s : String)
deriving DecidableEq, Repr

/-- Go `types.String.ValueString`: the known value, the empty string otherwise. -/
def TypesString.ValueString : TypesString → String
  | TypesString.Value s => s
  | _ => ""

/-- Go `types.StringValue`. -/
def StringValue (s : String) : TypesString := TypesString.Value s

/-- The resource model.  `Types` is a Go slice `[]int64`: `none` is the nil
slice (a null list), `some xs` a list of elements. -/
structure WebhookResourceModel where
  ID : TypesString
  ClientID : TypesString
  URL : TypesString
  SharedSecret : TypesString
  Types : Option (List Int)
deriving DecidableEq, Repr

/-! ## HTTP and JSON -/

/-- A value of a JSON object member, as far as this program marshals them:
a string, an array of integers, or null (a nil slice). -/
inductive JsonValue where
  | null
  | str (s : String)
  | ints (xs : List Int)
deriving DecidableEq, Repr

/-- What `json.Marshal` makes of a `[]int64`. -/
def marshalInt64Slice : Option (List Int) → JsonValue
  | none => JsonValue.null
  | some xs => JsonValue.ints xs

/-- A request body: none (`nil`), the JSON object that `json.Marshal` wrote
(members in order), or the pairs that `url.Values.Encode` wrote (in order). -/
inductive Body where
  | none
  | json (members : List (String × JsonValue))
  | form (pairs : List (String × String))
deriving DecidableEq, Repr

/-- The type `http.Header`: a map from (canonical) key to values. -/
structure HttpHeader where
  entries : List (String × List String)
deriving DecidableEq, Repr

/-- The values stored under a key. -/
def HttpHeader.Values (h : HttpHeader) (key : String) : Option (List String) :=
  (h.entries.find? (fun e => e.1 == key)).map (fun e => e.2)

/-- Go `Header.Set`: the key now maps to exactly this one value.  The keys this
program uses (`Authorization`, `Content-Type`) are in canonical form. -/
def HttpHeader.Set (h : HttpHeader) (key value : String) : HttpHeader :=
  ⟨(key, [value]) :: h.entries.filter (fun e => e.1 != key)⟩

/-- Go `Header.Add`: the value is appended to those of the key. -/
def HttpHeader.Add (h : HttpHeader) (key value : String) : HttpHeader :=
  match h.Values key with
  | some vs => ⟨(key, vs ++ [value]) :: h.entries.filter (fun e => e.1 != key)⟩
  | Option.none => ⟨(key, [value]) :: h.entries⟩

/-- An outgoing `http.Request`. -/
structure Request where
  Method : String
  URL : String
  Header : HttpHeader
  Body : Body
deriving DecidableEq, Repr

/-- An `http.Response`: status code and the bytes of the body. -/
structure HttpResponse where
  StatusCode : Nat
  Body : String
deriving DecidableEq, Repr

/-- The struct `tokenResp` of `getAccessToken`. -/
structure TokenResp where
  AccessToken : String
deriving DecidableEq, Repr

/-- The struct `webhookResp` of `Create`. -/
structure CreateWebhookResp where
  ID : String
deriving DecidableEq, Repr

/-- The struct `webhookResp` of `Read`. -/
structure ReadWebhookResp where
  ID : String
  ClientID : String
  URL : String
  Types : Option (List Int)
deriving DecidableEq, Repr

/-- The environment of the program: the standard library and the remote
server.  Errors are represented by their `Error()` text. -/
structure World where
  /-- The error of `http.NewRequest method url body`, if any. -/
  newRequestError : String → String → Option String
  /-- The outcome of `http.Client.Do`: a transport error or a response. -/
  Do : Request → Except String HttpResponse
  /-- The outcome of `json.NewDecoder(body).Decode(&tokenResp)`. -/
  decodeToken : String → Except String TokenResp
  /-- The outcome of `json.NewDecoder(body).Decode(&webhookResp)` in `Create`. -/
  decodeCreate : String → Except String CreateWebhookResp
  /-- The outcome of `json.NewDecoder(body).Decode(&webhookResp)` in `Read`. -/
  decodeRead : String → Except String ReadWebhookResp

/-! ## The client (`provider.go`) -/

/-- The struct `client`; its `httpClient` is the default client, whose
behaviour is `World.Do`. -/
structure client where
  clientID : String
  clientSecret : String
  baseURL : String
  accessToken : String
deriving DecidableEq, Repr

/-- The type `url.Values`: a map from key to values. -/
structure Values where
  entries : List (String × List String)
deriving DecidableEq, Repr

/-- Go `Values.Set`. -/
def Values.Set (v : Values) (key value : String) : Values :=
  ⟨(key, [value]) :: v.entries.filter (fun e => e.1 != key)⟩

/-- Go `Values.Encode`: the pairs, sorted by key, as they are written into the
`key=value&...` form body. -/
def Values.Encode (v : Values) : List (String × String) :=
  ((v.entries.map (fun e => e.1)).insertionSort (fun a b => a ≤ b)).flatMap
    (fun k => match v.entries.find? (fun e => e.1 == k) with
      | some e => e.2.map (fun x => (k, x))
      | Option.none => [])

/-- The request that `getAccessToken` builds. -/
def client.authRequest (c : client) : Request :=
  let data : Values := ⟨[]⟩
  let data := data.Set "client_id" c.clientID
  let data := data.Set "client_secret" c.clientSecret
  let data := data.Set "grant_type" "client_credentials"
  let req : Request := ⟨"POST", c.baseURL ++ "/auth", ⟨[]⟩, Body.form data.Encode⟩
  { req with Header := req.Header.Add "Content-Type" "application/x-www-form-urlencoded" }

/-- Result of `getAccessToken`: the returned error (if any), the client after
the call, and the requests sent. -/
structure TokenOutcome where
  err : Option String
  c : client
  sent : List Request

/-- Go `client.getAccessToken`. -/
def client.getAccessToken (w : World) (c : client) : TokenOutcome :=
  match w.newRequestError "POST" (c.baseURL ++ "/auth") with
  | some err => ⟨some err, c, []⟩
  | none =>
    let req := c.authRequest
    match w.Do req with
    | Except.error err => ⟨some err, c, [req]⟩
    | Except.ok resp =>
      if resp.StatusCode ≠ 200 then
        ⟨some ("auth failed: " ++ resp.Body), c, [req]⟩
      else
        match w.decodeToken resp.Body with
        | Except.error err => ⟨some err, c, [req]⟩
        | Except.ok tokenResp =>
          ⟨none, { c with accessToken := tokenResp.AccessToken }, [req]⟩

/-- Go `newClient`: the client (or the error, and then no client) and the
requests sent. -/
def newClient (w : World) (clientID clientSecret : String) :
    Except String client × List Request :=
  let c : client := ⟨clientID, clientSecret, "https://connect.fitogram.pro", ""⟩
  let out := c.getAccessToken w
  match out.err with
  | some err => (Except.error err, out.sent)
  | none => (Except.ok out.c, out.sent)

/-- The request as `doRequest` hands it to `http.Client.Do`. -/
def client.authorize (c : client) (req : Request) : Request :=
  { req with Header := req.Header.Set "Authorization" ("Bearer " ++ c.accessToken) }

/-- Go `client.doRequest`: the request sent and the outcome. -/
def client.doRequest (w : World) (c : client) (req : Request) :
    Request × Except String HttpResponse :=
  (c.authorize req, w.Do (c.authorize req))

/-! ## The provider (`provider.go`) -/

/-- Element types of list attributes. -/
inductive ElementType where
  | Int64Type
deriving DecidableEq, Repr

/-- The attribute constructors used by the schemas. -/
inductive AttributeKind where
  | StringAttribute
  | ListAttribute (ElementType : ElementType)
deriving DecidableEq, Repr

/-- Plan modifiers used by the schemas. -/
inductive PlanModifier where
  | UseStateForUnknown
  | RequiresReplace
deriving DecidableEq, Repr

/-- A `schema.Attribute`; a flag that the source leaves out is false. -/
structure Attribute where
  kind : AttributeKind
  Required : Bool
  Optional : Bool
  Computed : Bool
  Sensitive : Bool
  MarkdownDescription : String
  PlanModifiers : List PlanModifier
deriving DecidableEq, Repr

/-- A `schema.Schema`: description and the attribute map. -/
structure Schema where
  MarkdownDescription : String
  Attributes : List (String × Attribute)
deriving DecidableEq, Repr

/-- The attribute of a name, if the schema has it. -/
def Schema.attr (s : Schema) (name : String) : Option Attribute :=
  (s.Attributes.find? (fun e => e.1 == name)).map (fun e => e.2)

/-- Terraform validation of a block against a schema, given the names of the
arguments the block sets: each argument is an attribute of the schema that the
user may set (required or optional), and each required attribute is set. -/
def Schema.accepts (s : Schema) (args : List String) : Bool :=
  args.all (fun a => match s.attr a with
    | some attr => attr.Required || attr.Optional
    | none => false)
  && s.Attributes.all (fun e => !e.2.Required || args.contains e.1)

/-- Go `UrbanSportsClubProvider.Schema`. -/
def UrbanSportsClubProvider.Schema : Schema :=
  { MarkdownDescription := ""
    Attributes :=
      [ ("client_id",
          { kind := AttributeKind.StringAttribute
            Required := true, Optional := false, Computed := false
            Sensitive := true
            MarkdownDescription := "The client ID for API authentication"
            PlanModifiers := [] }),
        ("client_secret",
          { kind := AttributeKind.StringAttribute
            Required := true, Optional := false, Computed := false
            Sensitive := true
            MarkdownDescription := "The client secret for API authentication"
            PlanModifiers := [] }) ] }

/-- The struct `UrbanSportsClubProviderModel`. -/
structure UrbanSportsClubProviderModel where
  ClientID : TypesString
  ClientSecret : TypesString
deriving DecidableEq, Repr

/-- The `provider.ConfigureResponse`, as far as `Configure` writes it. -/
structure ConfigureResponse where
  Diagnostics : List Diagnostic
  DataSourceData : Option client
  ResourceData : Option client
deriving DecidableEq, Repr

/-- Go `UrbanSportsClubProvider.Configure`.  `config` is the model that
`req.Config.Get` filled, `getDiags` the diagnostics it returned. -/
def UrbanSportsClubProvider.Configure (w : World)
    (config : UrbanSportsClubProviderModel) (getDiags : List Diagnostic)
    (resp : ConfigureResponse) : ConfigureResponse × List Request :=
  let diags := resp.Diagnostics ++ getDiags
  if HasError diags then
    ({ resp with Diagnostics := diags }, [])
  else
    match newClient w config.ClientID.ValueString config.ClientSecret.ValueString with
    | (Except.error err, sent) =>
      ({ resp with Diagnostics := AddError diags "Failed to create client" err }, sent)
    | (Except.ok client, sent) =>
      ({ Diagnostics := diags, DataSourceData := some client, ResourceData := some client }, sent)

/-! ## The webhook resource (`resource.go`) -/

/-- The struct `WebhookResource`, configured with the client of the provider. -/
structure WebhookResource where
  client : client
deriving DecidableEq, Repr

/-- Go `WebhookResource.Schema`. -/
def WebhookResource.Schema : Schema :=
  { MarkdownDescription := "Webhook resource for UrbanSportsClub API"
    Attributes :=
      [ ("id",
          { kind := AttributeKind.StringAttribute
            Required := false, Optional := false, Computed := true
            Sensitive := false
            MarkdownDescription := ""
            PlanModifiers := [PlanModifier.UseStateForUnknown] }),
        ("client_id",
          { kind := AttributeKind.StringAttribute
            Required := true, Optional := false, Computed := false
            Sensitive := false
            MarkdownDescription := "Client ID for the webhook"
            PlanModifiers := [PlanModifier.RequiresReplace] }),
        ("url",
          { kind := AttributeKind.StringAttribute
            Required := true, Optional := false, Computed := false
            Sensitive := false
            MarkdownDescription := "URL for the webhook endpoint"
            PlanModifiers := [] }),
        ("shared_secret",
          { kind := AttributeKind.StringAttribute
            Required := true, Optional := false, Computed := false
            Sensitive := true
            MarkdownDescription := "Shared secret for webhook authentication"
            PlanModifiers := [] }),
        ("types",
          { kind := AttributeKind.ListAttribute ElementType.Int64Type
            Required := true, Optional := false, Computed := false
            Sensitive := false
            MarkdownDescription := "Types of webhooks to subscribe to"
            PlanModifiers := [PlanModifier.RequiresReplace] }) ] }

/-- The response of a resource operation as the operation can change it: the
diagnostics and the state (`none`: no resource in state). -/
structure ResourceResponse where
  Diagnostics : List Diagnostic
  State : Option WebhookResourceModel
deriving DecidableEq, Repr

/-- A resource operation has run: the response, and the requests it handed to
`doRequest`, as sent, in order. -/
structure Outcome where
  Diagnostics : List Diagnostic
  State : Option WebhookResourceModel
  sent : List Request
deriving DecidableEq, Repr

/-- The `webhookReq` of `Create`, marshalled. -/
def createBody (data : WebhookResourceModel) : Body :=
  Body.json
    [ ("clientId", JsonValue.str data.ClientID.ValueString),
      ("url", JsonValue.str data.URL.ValueString),
      ("sharedSecret", JsonValue.str data.SharedSecret.ValueString),
      ("types", marshalInt64Slice data.Types) ]

/-- The `webhookReq` of `Update`, marshalled. -/
def updateBody (data : WebhookResourceModel) : Body :=
  Body.json
    [ ("url", JsonValue.str data.URL.ValueString),
      ("sharedSecret", JsonValue.str data.SharedSecret.ValueString) ]

/-- Go `WebhookResource.Create`.  `data` is the model that `req.Plan.Get` filled,
`getDiags` the diagnostics it returned.  `json.Marshal` cannot fail on the
request struct (strings and a slice of integers), and `State.Set` of a model
of the schema returns no diagnostics. -/
def WebhookResource.Create (w : World) (r : WebhookResource)
    (data : WebhookResourceModel) (getDiags : List Diagnostic)
    (resp : ResourceResponse) : Outcome :=
  let diags := resp.Diagnostics ++ getDiags
  if HasError diags then ⟨diags, resp.State, []⟩
  else
    let url := r.client.baseURL ++ "/webhook-endpoints"
    match w.newRequestError "POST" url with
    | some err => ⟨AddError diags "Request Creation Error" err, resp.State, []⟩
    | none =>
      let httpReq : Request := ⟨"POST", url, ⟨[]⟩, createBody data⟩
      let httpReq := { httpReq with Header := httpReq.Header.Set "Content-Type" "application/json" }
      match r.client.doRequest w httpReq with
      | (sent, Except.error err) => ⟨AddError diags "Request Error" err, resp.State, [sent]⟩
      | (sent, Except.ok httpResp) =>
        if httpResp.StatusCode ≠ 200 then
          ⟨AddError diags "API Error"
              ("Failed to create webhook. Status: " ++ toString httpResp.StatusCode
                ++ ", Body: " ++ httpResp.Body),
            resp.State, [sent]⟩
        else
          match w.decodeCreate httpResp.Body with
          | Except.error err => ⟨AddError diags "Response Parse Error" err, resp.State, [sent]⟩
          | Except.ok webhookResp =>
            ⟨diags, some { data with ID := StringValue webhookResp.ID }, [sent]⟩

/-- Go `WebhookResource.Read`.  `data` is the model that `req.State.Get` filled,
`getDiags` the diagnostics it returned. -/
def WebhookResource.Read (w : World) (r : WebhookResource)
    (data : WebhookResourceModel) (getDiags : List Diagnostic)
    (resp : ResourceResponse) : Outcome :=
  let diags := resp.Diagnostics ++ getDiags
  if HasError diags then ⟨diags, resp.State, []⟩
  else
    let url := r.client.baseURL ++ "/webhook-endpoints/" ++ data.ID.ValueString
    match w.newRequestError "GET" url with
    | some err => ⟨AddError diags "Request Creation Error" err, resp.State, []⟩
    | none =>
      let httpReq : Request := ⟨"GET", url, ⟨[]⟩, Body.none⟩
      match r.client.doRequest w httpReq with
      | (sent, Except.error err) => ⟨AddError diags "Request Error" err, resp.State, [sent]⟩
      | (sent, Except.ok httpResp) =>
        if httpResp.StatusCode = 404 then
          ⟨diags, none, [sent]⟩
        else if httpResp.StatusCode ≠ 200 then
          ⟨AddError diags "API Error"
              ("Failed to read webhook. Status: " ++ toString httpResp.StatusCode
                ++ ", Body: " ++ httpResp.Body),
            resp.State, [sent]⟩
        else
          match w.decodeRead httpResp.Body with
          | Except.error err => ⟨AddError diags "Response Parse Error" err, resp.State, [sent]⟩
          | Except.ok webhookResp =>
            ⟨diags,
              some { data with
                ID := StringValue webhookResp.ID
                ClientID := StringValue webhookResp.ClientID
                URL := StringValue webhookResp.URL
                Types := webhookResp.Types },
              [sent]⟩

/-- Go `WebhookResource.Update`.  `data` is the model that `req.Plan.Get` filled,
`getDiags` the diagnostics it returned. -/
def WebhookResource.Update (w : World) (r : WebhookResource)
    (data : WebhookResourceModel) (getDiags : List Diagnostic)
    (resp : ResourceResponse) : Outcome :=
  let diags := resp.Diagnostics ++ getDiags
  if HasError diags then ⟨diags, resp.State, []⟩
  else
    let url := r.client.baseURL ++ "/webhook-endpoints/" ++ data.ID.ValueString
    match w.newRequestError "PATCH" url with
    | some err => ⟨AddError diags "Request Creation Error" err, resp.State, []⟩
    | none =>
      let httpReq : Request := ⟨"PATCH", url, ⟨[]⟩, updateBody data⟩
      let httpReq := { httpReq with Header := httpReq.Header.Set "Content-Type" "application/json" }
      match r.client.doRequest w httpReq with
      | (sent, Except.error err) => ⟨AddError diags "Request Error" err, resp.State, [sent]⟩
      | (sent, Except.ok httpResp) =>
        if httpResp.StatusCode ≠ 200 then
          ⟨AddError diags "API Error"
              ("Failed to update webhook. Status: " ++ toString httpResp.StatusCode
                ++ ", Body: " ++ httpResp.Body),
            resp.State, [sent]⟩
        else
          ⟨diags, some data, [sent]⟩

/-- Go `WebhookResource.Delete`.  `data` is the model that `req.State.Get` filled,
`getDiags` the diagnostics it returned.  The operation itself never touches
the state of the response. -/
def WebhookResource.Delete (w : World) (r : WebhookResource)
    (data : WebhookResourceModel) (getDiags : List Diagnostic)
    (resp : ResourceResponse) : Outcome :=
  let diags := resp.Diagnostics ++ getDiags
  if HasError diags then ⟨diags, resp.State, []⟩
  else
    let url := r.client.baseURL ++ "/webhook-endpoints/" ++ data.ID.ValueString
    match w.newRequestError "DELETE" url with
    | some err => ⟨AddError diags "Request Creation Error" err, resp.State, []⟩
    | none =>
      let httpReq : Request := ⟨"DELETE", url, ⟨[]⟩, Body.none⟩
      match r.client.doRequest w httpReq with
      | (sent, Except.error err) => ⟨AddError diags "Request Error" err, resp.State, [sent]⟩
      | (sent, Except.ok httpResp) =>
        if httpResp.StatusCode ≠ 204 ∧ httpResp.StatusCode ≠ 200 then
          ⟨AddError diags "API Error"
              ("Failed to delete webhook. Status: " ++ toString httpResp.StatusCode
                ++ ", Body: " ++ httpResp.Body),
            resp.State, [sent]⟩
        else
          ⟨diags, resp.State, [sent]⟩

/-- The state in which every attribute is null. -/
def nullState : WebhookResourceModel :=
  ⟨TypesString.Null, TypesString.Null, TypesString.Null, TypesString.Null, none⟩

/-- Go `WebhookResource.ImportState`: `ImportStatePassthroughID` on the root
attribute `id` sets that attribute of the state of the response to the
identifier given to the import and leaves every other attribute as it is. -/
def WebhookResource.ImportState (id : String) (resp : ResourceResponse) : ResourceResponse :=
  { resp with State := some { (resp.State.getD nullState) with ID := StringValue id } }

/-! ## The four operations as one -/

/-- The lifecycle operations of the resource that talk to the server. -/
inductive Operation where
  | Create
  | Read
  | Update
  | Delete
deriving DecidableEq, Repr

/-- The operation of that name. -/
def WebhookResource.run (op : Operation) (w : World) (r : WebhookResource)
    (data : WebhookResourceModel) (getDiags : List Diagnostic)
    (resp : ResourceResponse) : Outcome :=
  match op with
  | Operation.Create => r.Create w data getDiags resp
  | Operation.Read => r.Read w data getDiags resp
  | Operation.Update => r.Update w data getDiags resp
  | Operation.Delete => r.Delete w data getDiags resp

/-- The body decodes into the struct the operation decodes into; `Update` and
`Delete` decode nothing. -/
def decodable (w : World) (op : Operation) (body : String) : Bool :=
  match op with
  | Operation.Create => (w.decodeCreate body).toBool
  | Operation.Read => (w.decodeRead body).toBool
  | Operation.Update => true
  | Operation.Delete => true

/-- The framework refreshes a resource whose state is `s`: `req.State.Get`
yields `s` without diagnostics, and the state of the response starts as the
state of the request. -/
def WebhookResource.refresh (w : World) (r : WebhookResource)
    (s : WebhookResourceModel) : Outcome :=
  r.Read w s [] ⟨[], some s⟩

/-- The framework imports a resource by identifier: `ImportState` runs on a
response without a resource in state, and the state it leaves is refreshed. -/
def WebhookResource.importThenRefresh (w : World) (r : WebhookResource)
    (id : String) : Outcome :=
  match (WebhookResource.ImportState id ⟨[], none⟩).State with
  | some s => r.refresh w s
  | none => ⟨[], none, []⟩

/-! ## Concrete servers

The mock server of `webhook_test.go` and two variations of it. -/

/-- The reply of the mock server to every POST. -/
def postReply : String := "\x7b\"id\": \"webhook123\"\x7d"

/-- The reply of the mock server to every GET. -/
def getReply : String :=
  "\x7b\n\t\t\t\t\"id\": \"webhook123\",\n\t\t\t\t\"clientId\": \"client123\",\n\t\t\t\t\"url\": \"https://example.com/webhook\",\n\t\t\t\t\"types\": [1, 2]\n\t\t\t\x7d"

/-- The handler of the mock server: a switch on the method; a method without
a case gets the default reply, status 200 with an empty body. -/
def mockHandler (req : Request) : HttpResponse :=
  if req.Method = "POST" then ⟨200, postReply⟩
  else if req.Method = "GET" then ⟨200, getReply⟩
  else if req.Method = "PATCH" then ⟨200, ""⟩
  else if req.Method = "DELETE" then ⟨204, ""⟩
  else ⟨200, ""⟩

/-- A server that answers every request with 404 and a body that is not JSON. -/
def notFoundHandler (_req : Request) : HttpResponse := ⟨404, "Not Found"⟩

/-- A server that answers every request with 201 and the POST reply of the
mock server. -/
def createdHandler (_req : Request) : HttpResponse := ⟨201, postReply⟩

/-- A world around a handler: every request can be built and reaches the
handler.  The decoders are those of `encoding/json` on the bodies that the
handlers above write: the two JSON objects decode (a member without a field is
skipped, a field without a member keeps its zero value), the other bodies are
not JSON. -/
def serverWorld (handler : Request → HttpResponse) : World :=
  { newRequestError := fun _ _ => none
    Do := fun req => Except.ok (handler req)
    decodeToken := fun body =>
      if body = postReply ∨ body = getReply then Except.ok ⟨""⟩
      else if body = "" then Except.error "EOF"
      else Except.error "invalid character"
    decodeCreate := fun body =>
      if body = postReply ∨ body = getReply then Except.ok ⟨"webhook123"⟩
      else if body = "" then Except.error "EOF"
      else Except.error "invalid character"
    decodeRead := fun body =>
      if body = postReply then Except.ok ⟨"webhook123", "", "", none⟩
      else if body = getReply then
        Except.ok ⟨"webhook123", "client123", "https://example.com/webhook", some [1, 2]⟩
      else if body = "" then Except.error "EOF"
      else Except.error "invalid character" }

/-- A resource configured with a client for a server at `baseURL`. -/
def testResource : WebhookResource :=
  ⟨⟨"client123", "secret", "http://127.0.0.1:8080", "token"⟩⟩

/-- The plan of the first step of the acceptance test. -/
def testPlan : WebhookResourceModel :=
  ⟨TypesString.Unknown, StringValue "client123", StringValue "https://example.com/webhook",
    StringValue "secret123", some [1, 2]⟩

/-- The state after the first step of the acceptance test. -/
def testState : WebhookResourceModel :=
  { testPlan with ID := StringValue "webhook123" }

/-! ## Theorems -/

/-! ### How each operation reaches the server -/

theorem HasError_AddError (diags : List Diagnostic) (summary detail : String) :
    HasError (AddError diags summary detail) = true := by
  simp [HasError, AddError]

theorem Create_sent_cases (w : World) (r : WebhookResource)
    (data : WebhookResourceModel) (getDiags : List Diagnostic) (resp : ResourceResponse)
    (req : Request) (h : req ∈ (r.Create w data getDiags resp).sent) :
    HasError (resp.Diagnostics ++ getDiags) = false ∧
    w.newRequestError "POST" (r.client.baseURL ++ "/webhook-endpoints") = none ∧
    req = r.client.authorize ⟨"POST", r.client.baseURL ++ "/webhook-endpoints",
      (⟨[]⟩ : HttpHeader).Set "Content-Type" "application/json", createBody data⟩ := by
  cases hE : HasError (resp.Diagnostics ++ getDiags)
  · cases hN : w.newRequestError "POST" (r.client.baseURL ++ "/webhook-endpoints")
    · cases hD : w.Do (r.client.authorize ⟨"POST", r.client.baseURL ++ "/webhook-endpoints",
          (⟨[]⟩ : HttpHeader).Set "Content-Type" "application/json", createBody data⟩)
      · simp [WebhookResource.Create, client.doRequest, hE, hN, hD] at h
        simp [h]
      · rename_i httpResp
        by_cases h200 : httpResp.StatusCode = 200 <;> cases hJ : w.decodeCreate httpResp.Body <;>
          simp [WebhookResource.Create, client.doRequest, hE, hN, hD, h200, hJ] at h <;> simp [h]
    · simp [WebhookResource.Create, client.doRequest, hE, hN] at h
  · simp [WebhookResource.Create, client.doRequest, hE] at h

theorem Read_sent_cases (w : World) (r : WebhookResource)
    (data : WebhookResourceModel) (getDiags : List Diagnostic) (resp : ResourceResponse)
    (req : Request) (h : req ∈ (r.Read w data getDiags resp).sent) :
    HasError (resp.Diagnostics ++ getDiags) = false ∧
    w.newRequestError "GET" (r.client.baseURL ++ "/webhook-endpoints/" ++ data.ID.ValueString) = none ∧
    req = r.client.authorize ⟨"GET", r.client.baseURL ++ "/webhook-endpoints/" ++ data.ID.ValueString, ⟨[]⟩, Body.none⟩ := by
  cases hE : HasError (resp.Diagnostics ++ getDiags)
  · cases hN : w.newRequestError "GET" (r.client.baseURL ++ "/webhook-endpoints/" ++ data.ID.ValueString)
    · cases hD : w.Do (r.client.authorize ⟨"GET", r.client.baseURL ++ "/webhook-endpoints/" ++ data.ID.ValueString, ⟨[]⟩, Body.none⟩)
      · simp [WebhookResource.Read, client.doRequest, hE, hN, hD] at h
        simp [h]
      · rename_i httpResp
        by_cases h404 : httpResp.StatusCode = 404 <;> by_cases h200 : httpResp.StatusCode = 200 <;>
          cases hJ : w.decodeRead httpResp.Body <;>
          simp [WebhookResource.Read, client.doRequest, hE, hN, hD, h404, h200, hJ] at h <;> simp [h]
    · simp [WebhookResource.Read, client.doRequest, hE, hN] at h
  · simp [WebhookResource.Read, client.doRequest, hE] at h

theorem Update_sent_cases (w : World) (r : WebhookResource)
    (data : WebhookResourceModel) (getDiags : List Diagnostic) (resp : ResourceResponse)
    (req : Request) (h : req ∈ (r.Update w data getDiags resp).sent) :
    HasError (resp.Diagnostics ++ getDiags) = false ∧
    w.newRequestError "PATCH" (r.client.baseURL ++ "/webhook-endpoints/" ++ data.ID.ValueString) = none ∧
    req = r.client.authorize ⟨"PATCH", r.client.baseURL ++ "/webhook-endpoints/" ++ data.ID.ValueString,
      (⟨[]⟩ : HttpHeader).Set "Content-Type" "application/json", updateBody data⟩ := by
  cases hE : HasError (resp.Diagnostics ++ getDiags)
  · cases hN : w.newRequestError "PATCH" (r.client.baseURL ++ "/webhook-endpoints/" ++ data.ID.ValueString)
    · cases hD : w.Do (r.client.authorize ⟨"PATCH", r.client.baseURL ++ "/webhook-endpoints/" ++ data.ID.ValueString,
          (⟨[]⟩ : HttpHeader).Set "Content-Type" "application/json", updateBody data⟩)
      · simp [WebhookResource.Update, client.doRequest, hE, hN, hD] at h
        simp [h]
      · rename_i httpResp
        by_cases h200 : httpResp.StatusCode = 200 <;>
          simp [WebhookResource.Update, client.doRequest, hE, hN, hD, h200] at h <;> simp [h]
    · simp [WebhookResource.Update, client.doRequest, hE, hN] at h
  · simp [WebhookResource.Update, client.doRequest, hE] at h

theorem Delete_sent_cases (w : World) (r : WebhookResource)
    (data : WebhookResourceModel) (getDiags : List Diagnostic) (resp : ResourceResponse)
    (req : Request) (h : req ∈ (r.Delete w data getDiags resp).sent) :
    HasError (resp.Diagnostics ++ getDiags) = false ∧
    w.newRequestError "DELETE" (r.client.baseURL ++ "/webhook-endpoints/" ++ data.ID.ValueString) = none ∧
    req = r.client.authorize ⟨"DELETE", r.client.baseURL ++ "/webhook-endpoints/" ++ data.ID.ValueString,
      ⟨[]⟩, Body.none⟩ := by
  cases hE : HasError (resp.Diagnostics ++ getDiags)
  · cases hN : w.newRequestError "DELETE" (r.client.baseURL ++ "/webhook-endpoints/" ++ data.ID.ValueString)
    · cases hD : w.Do (r.client.authorize ⟨"DELETE", r.client.baseURL ++ "/webhook-endpoints/" ++ data.ID.ValueString,
          ⟨[]⟩, Body.none⟩)
      · simp [WebhookResource.Delete, client.doRequest, hE, hN, hD] at h
        simp [h]
      · rename_i httpResp
        by_cases h200 : httpResp.StatusCode = 200 <;> by_cases h204 : httpResp.StatusCode = 204 <;>
          simp [WebhookResource.Delete, client.doRequest, hE, hN, hD, h200, h204] at h <;> simp [h]
    · simp [WebhookResource.Delete, client.doRequest, hE, hN] at h
  · simp [WebhookResource.Delete, client.doRequest, hE] at h

/-! ### What each operation does once its request is on the way -/

theorem Create_reached (w : World) (r : WebhookResource)
    (data : WebhookResourceModel) (getDiags : List Diagnostic) (resp : ResourceResponse)
    (req : Request) (h : req ∈ (r.Create w data getDiags resp).sent) :
    r.Create w data getDiags resp =
      match w.Do req with
      | Except.error err =>
        ⟨AddError (resp.Diagnostics ++ getDiags) "Request Error" err, resp.State, [req]⟩
      | Except.ok httpResp =>
        if httpResp.StatusCode ≠ 200 then
          ⟨AddError (resp.Diagnostics ++ getDiags) "API Error"
              ("Failed to create webhook. Status: " ++ toString httpResp.StatusCode
                ++ ", Body: " ++ httpResp.Body),
            resp.State, [req]⟩
        else
          match w.decodeCreate httpResp.Body with
          | Except.error err =>
            ⟨AddError (resp.Diagnostics ++ getDiags) "Response Parse Error" err, resp.State, [req]⟩
          | Except.ok webhookResp =>
            ⟨resp.Diagnostics ++ getDiags, some { data with ID := StringValue webhookResp.ID }, [req]⟩ := by
  obtain ⟨hE, hN, hreq⟩ := Create_sent_cases w r data getDiags resp req h
  cases hD : w.Do req <;> rw [hreq] at hD <;>
    simp [WebhookResource.Create, client.doRequest, hE, hN, hD, hreq]

theorem Read_reached (w : World) (r : WebhookResource)
    (data : WebhookResourceModel) (getDiags : List Diagnostic) (resp : ResourceResponse)
    (req : Request) (h : req ∈ (r.Read w data getDiags resp).sent) :
    r.Read w data getDiags resp =
      match w.Do req with
      | Except.error err =>
        ⟨AddError (resp.Diagnostics ++ getDiags) "Request Error" err, resp.State, [req]⟩
      | Except.ok httpResp =>
        if httpResp.StatusCode = 404 then
          ⟨resp.Diagnostics ++ getDiags, none, [req]⟩
        else if httpResp.StatusCode ≠ 200 then
          ⟨AddError (resp.Diagnostics ++ getDiags) "API Error"
              ("Failed to read webhook. Status: " ++ toString httpResp.StatusCode
                ++ ", Body: " ++ httpResp.Body),
            resp.State, [req]⟩
        else
          match w.decodeRead httpResp.Body with
          | Except.error err =>
            ⟨AddError (resp.Diagnostics ++ getDiags) "Response Parse Error" err, resp.State, [req]⟩
          | Except.ok webhookResp =>
            ⟨resp.Diagnostics ++ getDiags,
              some { data with
                ID := StringValue webhookResp.ID
                ClientID := StringValue webhookResp.ClientID
                URL := StringValue webhookResp.URL
                Types := webhookResp.Types },
              [req]⟩ := by
  obtain ⟨hE, hN, hreq⟩ := Read_sent_cases w r data getDiags resp req h
  cases hD : w.Do req <;> rw [hreq] at hD <;>
    simp [WebhookResource.Read, client.doRequest, hE, hN, hD, hreq]

theorem Update_reached (w : World) (r : WebhookResource)
    (data : WebhookResourceModel) (getDiags : List Diagnostic) (resp : ResourceResponse)
    (req : Request) (h : req ∈ (r.Update w data getDiags resp).sent) :
    r.Update w data getDiags resp =
      match w.Do req with
      | Except.error err =>
        ⟨AddError (resp.Diagnostics ++ getDiags) "Request Error" err, resp.State, [req]⟩
      | Except.ok httpResp =>
        if httpResp.StatusCode ≠ 200 then
          ⟨AddError (resp.Diagnostics ++ getDiags) "API Error"
              ("Failed to update webhook. Status: " ++ toString httpResp.StatusCode
                ++ ", Body: " ++ httpResp.Body),
            resp.State, [req]⟩
        else
          ⟨resp.Diagnostics ++ getDiags, some data, [req]⟩ := by
  obtain ⟨hE, hN, hreq⟩ := Update_sent_cases w r data getDiags resp req h
  cases hD : w.Do req <;> rw [hreq] at hD <;>
    simp [WebhookResource.Update, client.doRequest, hE, hN, hD, hreq]

theorem Delete_reached (w : World) (r : WebhookResource)
    (data : WebhookResourceModel) (getDiags : List Diagnostic) (resp : ResourceResponse)
    (req : Request) (h : req ∈ (r.Delete w data getDiags resp).sent) :
    r.Delete w data getDiags resp =
      match w.Do req with
      | Except.error err =>
        ⟨AddError (resp.Diagnostics ++ getDiags) "Request Error" err, resp.State, [req]⟩
      | Except.ok httpResp =>
        if httpResp.StatusCode ≠ 204 ∧ httpResp.StatusCode ≠ 200 then
          ⟨AddError (resp.Diagnostics ++ getDiags) "API Error"
              ("Failed to delete webhook. Status: " ++ toString httpResp.StatusCode
                ++ ", Body: " ++ httpResp.Body),
            resp.State, [req]⟩
        else
          ⟨resp.Diagnostics ++ getDiags, resp.State, [req]⟩ := by
  obtain ⟨hE, hN, hreq⟩ := Delete_sent_cases w r data getDiags resp req h
  cases hD : w.Do req <;> rw [hreq] at hD <;>
    simp [WebhookResource.Delete, client.doRequest, hE, hN, hD, hreq]

/-! ### Read of a resource that is gone -/

/-- C1. `WebhookResource.Read`: whenever the request it sent is answered with
status 404, whatever the body of that response, the prior state and the state
of the response, the resource is removed from state and the operation adds no
diagnostic at all: the diagnostics are those the response started with and
those of reading the prior state, and none of them is an error. -/
theorem Read_not_found_removes_resource (w : World) (r : WebhookResource)
    (data : WebhookResourceModel) (getDiags : List Diagnostic) (resp : ResourceResponse)
    (req : Request) (httpResp : HttpResponse)
    (hsent : req ∈ (r.Read w data getDiags resp).sent)
    (hdo : w.Do req = Except.ok httpResp)
    (h404 : httpResp.StatusCode = 404) :
    (r.Read w data getDiags resp).State = none ∧
    (r.Read w data getDiags resp).Diagnostics = resp.Diagnostics ++ getDiags ∧
    HasError (r.Read w data getDiags resp).Diagnostics = false ∧
    (r.Read w data getDiags resp).sent = [req] := by
  have hE := (Read_sent_cases w r data getDiags resp req hsent).1
  rw [Read_reached w r data getDiags resp req hsent]
  simp [hdo, h404, hE]

/-- C1, at the server that answers 404 with the body `Not Found`: the state of
the acceptance test is removed and no diagnostic is added. -/
theorem Read_not_found_removes_resource_witness :
    (testResource.Read (serverWorld notFoundHandler) testState [] ⟨[], some testState⟩).State = none ∧
    (testResource.Read (serverWorld notFoundHandler) testState [] ⟨[], some testState⟩).Diagnostics = [] ∧
    HasError (testResource.Read (serverWorld notFoundHandler) testState [] ⟨[], some testState⟩).Diagnostics = false ∧
    (testResource.Read (serverWorld notFoundHandler) testState [] ⟨[], some testState⟩).sent =
      [⟨"GET", "http://127.0.0.1:8080/webhook-endpoints/webhook123",
        ⟨[("Authorization", ["Bearer token"])]⟩, Body.none⟩] :=
  Read_not_found_removes_resource (serverWorld notFoundHandler) testResource testState []
    ⟨[], some testState⟩
    ⟨"GET", "http://127.0.0.1:8080/webhook-endpoints/webhook123",
      ⟨[("Authorization", ["Bearer token"])]⟩, Body.none⟩
    ⟨404, "Not Found"⟩ (by decide) rfl rfl

/-! ### Failures -/

/-- C2, as stated, fails on `Read` at a 404 response whose body is not JSON:
the one request sent is answered with status 404 and the body `Not Found`,
which does not decode, yet no diagnostic is added and the state is not left as
it was: the resource is removed. -/
theorem Read_not_found_undecodable_adds_no_error :
    (testResource.run Operation.Read (serverWorld notFoundHandler) testState []
        ⟨[], some testState⟩).sent =
      [⟨"GET", "http://127.0.0.1:8080/webhook-endpoints/webhook123",
        ⟨[("Authorization", ["Bearer token"])]⟩, Body.none⟩] ∧
    (serverWorld notFoundHandler).Do
        ⟨"GET", "http://127.0.0.1:8080/webhook-endpoints/webhook123",
          ⟨[("Authorization", ["Bearer token"])]⟩, Body.none⟩ =
      Except.ok ⟨404, "Not Found"⟩ ∧
    decodable (serverWorld notFoundHandler) Operation.Read "Not Found" = false ∧
    (testResource.run Operation.Read (serverWorld notFoundHandler) testState []
        ⟨[], some testState⟩).Diagnostics = [] ∧
    (testResource.run Operation.Read (serverWorld notFoundHandler) testState []
        ⟨[], some testState⟩).State = none ∧
    (testResource.run Operation.Read (serverWorld notFoundHandler) testState []
        ⟨[], some testState⟩).State ≠ some testState :=
  ⟨by decide, rfl, by decide, by decide, by decide, by decide⟩

/-- C2, amended.  For each of Create, Read, Update and Delete and every input:
if the request the operation sent is not answered with status 404 on Read, and
it is answered with a transport error, or with a status outside 200..299, or
(for Create and Read) with a body that does not decode, then the operation adds
exactly one diagnostic, an error, sends no further request, and leaves the
state of the response as it was. -/
theorem failure_adds_error_and_keeps_state (op : Operation) (w : World) (r : WebhookResource)
    (data : WebhookResourceModel) (getDiags : List Diagnostic) (resp : ResourceResponse)
    (req : Request)
    (hsent : req ∈ (r.run op w data getDiags resp).sent)
    (hfail : match w.Do req with
      | Except.error _ => True
      | Except.ok httpResp =>
        ¬ (op = Operation.Read ∧ httpResp.StatusCode = 404) ∧
        (¬ (200 ≤ httpResp.StatusCode ∧ httpResp.StatusCode ≤ 299) ∨
          ((op = Operation.Create ∨ op = Operation.Read) ∧
            decodable w op httpResp.Body = false))) :
    (∃ summary detail, (r.run op w data getDiags resp).Diagnostics =
      resp.Diagnostics ++ getDiags ++ [⟨Severity.Error, summary, detail⟩]) ∧
    HasError (r.run op w data getDiags resp).Diagnostics = true ∧
    (r.run op w data getDiags resp).sent = [req] ∧
    (r.run op w data getDiags resp).State = resp.State := by
  cases op
  · simp only [WebhookResource.run] at hsent ⊢
    rw [Create_reached w r data getDiags resp req hsent]
    cases hD : w.Do req with
    | error err => simp [AddError, HasError]
    | ok httpResp =>
      simp only [hD] at hfail
      by_cases h200 : httpResp.StatusCode = 200
      · cases hJ : w.decodeCreate httpResp.Body with
        | error err => simp [h200, hJ, AddError, HasError]
        | ok b => simp [h200, decodable, hJ, Except.toBool] at hfail
      · simp [h200, AddError, HasError]
  · simp only [WebhookResource.run] at hsent ⊢
    rw [Read_reached w r data getDiags resp req hsent]
    cases hD : w.Do req with
    | error err => simp [AddError, HasError]
    | ok httpResp =>
      simp only [hD] at hfail
      have h404 : httpResp.StatusCode ≠ 404 := by simpa using hfail.1
      by_cases h200 : httpResp.StatusCode = 200
      · cases hJ : w.decodeRead httpResp.Body with
        | error err => simp [h200, hJ, AddError, HasError]
        | ok b => simp [h200, decodable, hJ, Except.toBool] at hfail
      · simp [h200, h404, AddError, HasError]
  · simp only [WebhookResource.run] at hsent ⊢
    rw [Update_reached w r data getDiags resp req hsent]
    cases hD : w.Do req with
    | error err => simp [AddError, HasError]
    | ok httpResp =>
      simp only [hD] at hfail
      have h200 : httpResp.StatusCode ≠ 200 := by
        intro h
        simp [h] at hfail
      simp [h200, AddError, HasError]
  · simp only [WebhookResource.run] at hsent ⊢
    rw [Delete_reached w r data getDiags resp req hsent]
    cases hD : w.Do req with
    | error err => simp [AddError, HasError]
    | ok httpResp =>
      simp only [hD] at hfail
      have h200 : httpResp.StatusCode ≠ 200 := by
        intro h
        simp [h] at hfail
      have h204 : httpResp.StatusCode ≠ 204 := by
        intro h
        simp [h] at hfail
      simp [h200, h204, AddError, HasError]

/-- C2, amended, at a server that answers the POST of Create with status 404:
one error diagnostic, one request, no state. -/
theorem failure_adds_error_and_keeps_state_witness :
    HasError (testResource.run Operation.Create (serverWorld notFoundHandler) testPlan []
        ⟨[], none⟩).Diagnostics = true ∧
    (testResource.run Operation.Create (serverWorld notFoundHandler) testPlan []
        ⟨[], none⟩).sent =
      [⟨"POST", "http://127.0.0.1:8080/webhook-endpoints",
        ⟨[("Authorization", ["Bearer token"]), ("Content-Type", ["application/json"])]⟩,
        Body.json [("clientId", JsonValue.str "client123"),
          ("url", JsonValue.str "https://example.com/webhook"),
          ("sharedSecret", JsonValue.str "secret123"),
          ("types", JsonValue.ints [1, 2])]⟩] ∧
    (testResource.run Operation.Create (serverWorld notFoundHandler) testPlan []
        ⟨[], none⟩).State = none :=
  (failure_adds_error_and_keeps_state Operation.Create (serverWorld notFoundHandler)
    testResource testPlan [] ⟨[], none⟩
    ⟨"POST", "http://127.0.0.1:8080/webhook-endpoints",
      ⟨[("Authorization", ["Bearer token"]), ("Content-Type", ["application/json"])]⟩,
      Body.json [("clientId", JsonValue.str "client123"),
        ("url", JsonValue.str "https://example.com/webhook"),
        ("sharedSecret", JsonValue.str "secret123"),
        ("types", JsonValue.ints [1, 2])]⟩
    (by decide) (by simp [serverWorld, notFoundHandler])).2

/-- C10, as stated, fails on `Create` at status 201: the one request sent is
answered with status 201, a status in 200..299, and a body that decodes, yet
the operation adds the error diagnostic `API Error` and writes no state. -/
theorem Create_status_201_adds_error :
    (testResource.run Operation.Create (serverWorld createdHandler) testPlan []
        ⟨[], none⟩).sent =
      [⟨"POST", "http://127.0.0.1:8080/webhook-endpoints",
        ⟨[("Authorization", ["Bearer token"]), ("Content-Type", ["application/json"])]⟩,
        Body.json [("clientId", JsonValue.str "client123"),
          ("url", JsonValue.str "https://example.com/webhook"),
          ("sharedSecret", JsonValue.str "secret123"),
          ("types", JsonValue.ints [1, 2])]⟩] ∧
    (serverWorld createdHandler).Do
        ⟨"POST", "http://127.0.0.1:8080/webhook-endpoints",
          ⟨[("Authorization", ["Bearer token"]), ("Content-Type", ["application/json"])]⟩,
          Body.json [("clientId", JsonValue.str "client123"),
            ("url", JsonValue.str "https://example.com/webhook"),
            ("sharedSecret", JsonValue.str "secret123"),
            ("types", JsonValue.ints [1, 2])]⟩ =
      Except.ok ⟨201, postReply⟩ ∧
    decodable (serverWorld createdHandler) Operation.Create postReply = true ∧
    (testResource.run Operation.Create (serverWorld createdHandler) testPlan []
        ⟨[], none⟩).Diagnostics =
      [⟨Severity.Error, "API Error",
        "Failed to create webhook. Status: 201, Body: \x7b\"id\": \"webhook123\"\x7d"⟩] ∧
    HasError (testResource.run Operation.Create (serverWorld createdHandler) testPlan []
        ⟨[], none⟩).Diagnostics = true ∧
    (testResource.run Operation.Create (serverWorld createdHandler) testPlan []
        ⟨[], none⟩).State = none :=
  ⟨by decide, rfl, by decide, by decide, by decide, by decide⟩

/-- C10, amended.  For each of Create, Read, Update and Delete: whenever the
request the operation sent is answered with status 200 (or, for Delete, 204)
and, for Create and Read, a body that decodes, the operation adds no
diagnostic, sends no further request and, for Create, Read and Update, writes
the resulting state: the plan with the decoded id (Create), the prior state
with id, client id, url and types as decoded (Read), the plan (Update). -/
theorem success_adds_no_error_and_writes_state (op : Operation) (w : World)
    (r : WebhookResource) (data : WebhookResourceModel) (getDiags : List Diagnostic)
    (resp : ResourceResponse) (req : Request) (httpResp : HttpResponse)
    (hsent : req ∈ (r.run op w data getDiags resp).sent)
    (hdo : w.Do req = Except.ok httpResp)
    (hstatus : httpResp.StatusCode = 200 ∨ (op = Operation.Delete ∧ httpResp.StatusCode = 204))
    (hdec : decodable w op httpResp.Body = true) :
    (r.run op w data getDiags resp).Diagnostics = resp.Diagnostics ++ getDiags ∧
    HasError (r.run op w data getDiags resp).Diagnostics = false ∧
    (r.run op w data getDiags resp).sent = [req] ∧
    (match op with
      | Operation.Create => ∃ b, w.decodeCreate httpResp.Body = Except.ok b ∧
          (r.run op w data getDiags resp).State = some { data with ID := StringValue b.ID }
      | Operation.Read => ∃ b, w.decodeRead httpResp.Body = Except.ok b ∧
          (r.run op w data getDiags resp).State =
            some { data with
              ID := StringValue b.ID
              ClientID := StringValue b.ClientID
              URL := StringValue b.URL
              Types := b.Types }
      | Operation.Update => (r.run op w data getDiags resp).State = some data
      | Operation.Delete => (r.run op w data getDiags resp).State = resp.State) := by
  cases op
  · simp only [WebhookResource.run] at hsent ⊢
    have hE := (Create_sent_cases w r data getDiags resp req hsent).1
    rw [Create_reached w r data getDiags resp req hsent]
    have h200 : httpResp.StatusCode = 200 := by simpa using hstatus
    cases hJ : w.decodeCreate httpResp.Body with
    | error err => simp [decodable, hJ, Except.toBool] at hdec
    | ok b => simp [hdo, h200, hJ, hE]
  · simp only [WebhookResource.run] at hsent ⊢
    have hE := (Read_sent_cases w r data getDiags resp req hsent).1
    rw [Read_reached w r data getDiags resp req hsent]
    have h200 : httpResp.StatusCode = 200 := by simpa using hstatus
    cases hJ : w.decodeRead httpResp.Body with
    | error err => simp [decodable, hJ, Except.toBool] at hdec
    | ok b => simp [hdo, h200, hJ, hE]
  · simp only [WebhookResource.run] at hsent ⊢
    have hE := (Update_sent_cases w r data getDiags resp req hsent).1
    rw [Update_reached w r data getDiags resp req hsent]
    have h200 : httpResp.StatusCode = 200 := by simpa using hstatus
    simp [hdo, h200, hE]
  · simp only [WebhookResource.run] at hsent ⊢
    have hE := (Delete_sent_cases w r data getDiags resp req hsent).1
    rw [Delete_reached w r data getDiags resp req hsent]
    rcases hstatus with h200 | ⟨_, h204⟩
    · simp [hdo, h200, hE]
    · simp [hdo, h204, hE]

/-- C10, amended, at the mock server of the acceptance test: Delete is
answered with 204, adds no diagnostic and leaves the state to the framework. -/
theorem success_adds_no_error_and_writes_state_witness :
    (testResource.run Operation.Delete (serverWorld mockHandler) testState []
        ⟨[], some testState⟩).Diagnostics = [] ++ [] ∧
    HasError (testResource.run Operation.Delete (serverWorld mockHandler) testState []
        ⟨[], some testState⟩).Diagnostics = false ∧
    (testResource.run Operation.Delete (serverWorld mockHandler) testState []
        ⟨[], some testState⟩).sent =
      [⟨"DELETE", "http://127.0.0.1:8080/webhook-endpoints/webhook123",
        ⟨[("Authorization", ["Bearer token"])]⟩, Body.none⟩] ∧
    (testResource.run Operation.Delete (serverWorld mockHandler) testState []
        ⟨[], some testState⟩).State = some testState :=
  success_adds_no_error_and_writes_state Operation.Delete (serverWorld mockHandler)
    testResource testState [] ⟨[], some testState⟩
    ⟨"DELETE", "http://127.0.0.1:8080/webhook-endpoints/webhook123",
      ⟨[("Authorization", ["Bearer token"])]⟩, Body.none⟩
    ⟨204, ""⟩ (by decide) rfl (Or.inr ⟨rfl, rfl⟩) rfl

/-! ### Requests and states of Create, Read and Update -/

/-- C3. `WebhookResource.Create`, once the plan is read without error and the
request is built: exactly one request is sent, a POST to `baseURL` followed by
`/webhook-endpoints`, whose JSON body has exactly the members `clientId`,
`url`, `sharedSecret` and `types`, in this order, holding the values of the
plan (`ValueString` of a known string is that string; the list of the plan
marshals to the array of its elements, in order); and when the response is
status 200 with a body that decodes to id `i`, the state written is the plan
with `id` set to `i`, and no diagnostic is added. -/
theorem Create_sends_post_and_writes_state (w : World) (r : WebhookResource)
    (data : WebhookResourceModel) (getDiags : List Diagnostic) (resp : ResourceResponse)
    (hE : HasError (resp.Diagnostics ++ getDiags) = false)
    (hN : w.newRequestError "POST" (r.client.baseURL ++ "/webhook-endpoints") = none) :
    (r.Create w data getDiags resp).sent =
      [⟨"POST", r.client.baseURL ++ "/webhook-endpoints",
        ⟨[("Authorization", ["Bearer " ++ r.client.accessToken]),
          ("Content-Type", ["application/json"])]⟩,
        Body.json [("clientId", JsonValue.str data.ClientID.ValueString),
          ("url", JsonValue.str data.URL.ValueString),
          ("sharedSecret", JsonValue.str data.SharedSecret.ValueString),
          ("types", match data.Types with
            | some xs => JsonValue.ints xs
            | none => JsonValue.null)]⟩] ∧
    ∀ (body i : String),
      w.Do ⟨"POST", r.client.baseURL ++ "/webhook-endpoints",
        ⟨[("Authorization", ["Bearer " ++ r.client.accessToken]),
          ("Content-Type", ["application/json"])]⟩,
        Body.json [("clientId", JsonValue.str data.ClientID.ValueString),
          ("url", JsonValue.str data.URL.ValueString),
          ("sharedSecret", JsonValue.str data.SharedSecret.ValueString),
          ("types", match data.Types with
            | some xs => JsonValue.ints xs
            | none => JsonValue.null)]⟩ = Except.ok ⟨200, body⟩ →
      w.decodeCreate body = Except.ok ⟨i⟩ →
      (r.Create w data getDiags resp).State =
        some ⟨TypesString.Value i, data.ClientID, data.URL, data.SharedSecret, data.Types⟩ ∧
      (r.Create w data getDiags resp).Diagnostics = resp.Diagnostics ++ getDiags := by
  have hreq : r.client.authorize ⟨"POST", r.client.baseURL ++ "/webhook-endpoints",
      (⟨[]⟩ : HttpHeader).Set "Content-Type" "application/json", createBody data⟩ =
      ⟨"POST", r.client.baseURL ++ "/webhook-endpoints",
        ⟨[("Authorization", ["Bearer " ++ r.client.accessToken]),
          ("Content-Type", ["application/json"])]⟩,
        Body.json [("clientId", JsonValue.str data.ClientID.ValueString),
          ("url", JsonValue.str data.URL.ValueString),
          ("sharedSecret", JsonValue.str data.SharedSecret.ValueString),
          ("types", match data.Types with
            | some xs => JsonValue.ints xs
            | none => JsonValue.null)]⟩ := by
    cases hT : data.Types <;>
      simp [client.authorize, HttpHeader.Set, createBody, marshalInt64Slice, hT]
  have hs : (r.Create w data getDiags resp).sent =
      [r.client.authorize ⟨"POST", r.client.baseURL ++ "/webhook-endpoints",
        (⟨[]⟩ : HttpHeader).Set "Content-Type" "application/json", createBody data⟩] := by
    cases hD : w.Do (r.client.authorize ⟨"POST", r.client.baseURL ++ "/webhook-endpoints",
        (⟨[]⟩ : HttpHeader).Set "Content-Type" "application/json", createBody data⟩)
    · simp [WebhookResource.Create, client.doRequest, hE, hN, hD]
    · rename_i httpResp
      by_cases h200 : httpResp.StatusCode = 200 <;> cases hJ : w.decodeCreate httpResp.Body <;>
        simp [WebhookResource.Create, client.doRequest, hE, hN, hD, h200, hJ]
  rw [hreq] at hs
  refine ⟨hs, ?_⟩
  intro body i hD hJ
  have hmem : (⟨"POST", r.client.baseURL ++ "/webhook-endpoints",
        ⟨[("Authorization", ["Bearer " ++ r.client.accessToken]),
          ("Content-Type", ["application/json"])]⟩,
        Body.json [("clientId", JsonValue.str data.ClientID.ValueString),
          ("url", JsonValue.str data.URL.ValueString),
          ("sharedSecret", JsonValue.str data.SharedSecret.ValueString),
          ("types", match data.Types with
            | some xs => JsonValue.ints xs
            | none => JsonValue.null)]⟩ : Request) ∈ (r.Create w data getDiags resp).sent := by
    rw [hs]
    exact List.mem_singleton.mpr rfl
  rw [Create_reached w r data getDiags resp _ hmem]
  simp [hD, hJ, StringValue]

/-- C3, at the first step of the acceptance test against the mock server: the
POST carries the four values of the configuration and the state written is
the plan with id `webhook123`. -/
theorem Create_sends_post_and_writes_state_witness :
    (testResource.Create (serverWorld mockHandler) testPlan [] ⟨[], none⟩).sent =
      [⟨"POST", "http://127.0.0.1:8080/webhook-endpoints",
        ⟨[("Authorization", ["Bearer token"]), ("Content-Type", ["application/json"])]⟩,
        Body.json [("clientId", JsonValue.str "client123"),
          ("url", JsonValue.str "https://example.com/webhook"),
          ("sharedSecret", JsonValue.str "secret123"),
          ("types", JsonValue.ints [1, 2])]⟩] ∧
    (testResource.Create (serverWorld mockHandler) testPlan [] ⟨[], none⟩).State =
      some ⟨TypesString.Value "webhook123", TypesString.Value "client123",
        TypesString.Value "https://example.com/webhook", TypesString.Value "secret123",
        some [1, 2]⟩ ∧
    (testResource.Create (serverWorld mockHandler) testPlan [] ⟨[], none⟩).Diagnostics = [] :=
  ⟨(Create_sends_post_and_writes_state (serverWorld mockHandler) testResource testPlan []
      ⟨[], none⟩ (by decide) rfl).1,
    (Create_sends_post_and_writes_state (serverWorld mockHandler) testResource testPlan []
      ⟨[], none⟩ (by decide) rfl).2 postReply "webhook123" rfl rfl⟩

theorem Read_request_and_state (w : World) (r : WebhookResource)
    (s : WebhookResourceModel) (getDiags : List Diagnostic) (resp : ResourceResponse)
    (hE : HasError (resp.Diagnostics ++ getDiags) = false)
    (hN : w.newRequestError "GET"
      (r.client.baseURL ++ "/webhook-endpoints/" ++ s.ID.ValueString) = none) :
    (r.Read w s getDiags resp).sent =
      [⟨"GET", r.client.baseURL ++ "/webhook-endpoints/" ++ s.ID.ValueString,
        ⟨[("Authorization", ["Bearer " ++ r.client.accessToken])]⟩, Body.none⟩] ∧
    ∀ (body : String) (b : ReadWebhookResp),
      w.Do ⟨"GET", r.client.baseURL ++ "/webhook-endpoints/" ++ s.ID.ValueString,
        ⟨[("Authorization", ["Bearer " ++ r.client.accessToken])]⟩, Body.none⟩ =
          Except.ok ⟨200, body⟩ →
      w.decodeRead body = Except.ok b →
      (r.Read w s getDiags resp).State =
        some ⟨TypesString.Value b.ID, TypesString.Value b.ClientID, TypesString.Value b.URL,
          s.SharedSecret, b.Types⟩ ∧
      (r.Read w s getDiags resp).Diagnostics = resp.Diagnostics ++ getDiags := by
  have hreq : r.client.authorize ⟨"GET",
      r.client.baseURL ++ "/webhook-endpoints/" ++ s.ID.ValueString, ⟨[]⟩, Body.none⟩ =
      ⟨"GET", r.client.baseURL ++ "/webhook-endpoints/" ++ s.ID.ValueString,
        ⟨[("Authorization", ["Bearer " ++ r.client.accessToken])]⟩, Body.none⟩ := by
    simp [client.authorize, HttpHeader.Set]
  have hs : (r.Read w s getDiags resp).sent =
      [r.client.authorize ⟨"GET",
        r.client.baseURL ++ "/webhook-endpoints/" ++ s.ID.ValueString, ⟨[]⟩, Body.none⟩] := by
    cases hD : w.Do (r.client.authorize ⟨"GET",
        r.client.baseURL ++ "/webhook-endpoints/" ++ s.ID.ValueString, ⟨[]⟩, Body.none⟩)
    · simp [WebhookResource.Read, client.doRequest, hE, hN, hD]
    · rename_i httpResp
      by_cases h404 : httpResp.StatusCode = 404 <;> by_cases h200 : httpResp.StatusCode = 200 <;>
        cases hJ : w.decodeRead httpResp.Body <;>
        simp [WebhookResource.Read, client.doRequest, hE, hN, hD, h404, h200, hJ]
  rw [hreq] at hs
  refine ⟨hs, ?_⟩
  intro body b hD hJ
  have hmem : (⟨"GET", r.client.baseURL ++ "/webhook-endpoints/" ++ s.ID.ValueString,
        ⟨[("Authorization", ["Bearer " ++ r.client.accessToken])]⟩, Body.none⟩ : Request) ∈
      (r.Read w s getDiags resp).sent := by
    rw [hs]
    exact List.mem_singleton.mpr rfl
  rw [Read_reached w r s getDiags resp _ hmem]
  simp [hD, hJ, StringValue]

/-- C4. `WebhookResource.Read`, once the prior state `s` is read without error
and the request is built: exactly one request is sent, a GET to `baseURL`
followed by `/webhook-endpoints/` and the id of `s`; and when the response is
status 200 with a body that decodes to `b`, the state written has id, client
id, url and types taken from `b` and the shared secret of `s`, and no
diagnostic is added. -/
theorem Read_sends_get_and_keeps_shared_secret (w : World) (r : WebhookResource)
    (s : WebhookResourceModel) (getDiags : List Diagnostic) (resp : ResourceResponse)
    (hE : HasError (resp.Diagnostics ++ getDiags) = false)
    (hN : w.newRequestError "GET"
      (r.client.baseURL ++ "/webhook-endpoints/" ++ s.ID.ValueString) = none) :
    (r.Read w s getDiags resp).sent =
      [⟨"GET", r.client.baseURL ++ "/webhook-endpoints/" ++ s.ID.ValueString,
        ⟨[("Authorization", ["Bearer " ++ r.client.accessToken])]⟩, Body.none⟩] ∧
    ∀ (body : String) (b : ReadWebhookResp),
      w.Do ⟨"GET", r.client.baseURL ++ "/webhook-endpoints/" ++ s.ID.ValueString,
        ⟨[("Authorization", ["Bearer " ++ r.client.accessToken])]⟩, Body.none⟩ =
          Except.ok ⟨200, body⟩ →
      w.decodeRead body = Except.ok b →
      (r.Read w s getDiags resp).State =
        some ⟨TypesString.Value b.ID, TypesString.Value b.ClientID, TypesString.Value b.URL,
          s.SharedSecret, b.Types⟩ ∧
      (r.Read w s getDiags resp).Diagnostics = resp.Diagnostics ++ getDiags :=
  Read_request_and_state w r s getDiags resp hE hN

/-- C4, at the refresh of the acceptance test against the mock server: the
state read back has the values of the GET reply and the shared secret of the
prior state, `secret123`, which the reply does not carry. -/
theorem Read_sends_get_and_keeps_shared_secret_witness :
    (testResource.Read (serverWorld mockHandler) testState [] ⟨[], some testState⟩).sent =
      [⟨"GET", "http://127.0.0.1:8080/webhook-endpoints/webhook123",
        ⟨[("Authorization", ["Bearer token"])]⟩, Body.none⟩] ∧
    (testResource.Read (serverWorld mockHandler) testState [] ⟨[], some testState⟩).State =
      some ⟨TypesString.Value "webhook123", TypesString.Value "client123",
        TypesString.Value "https://example.com/webhook", TypesString.Value "secret123",
        some [1, 2]⟩ ∧
    (testResource.Read (serverWorld mockHandler) testState [] ⟨[], some testState⟩).Diagnostics = [] :=
  ⟨(Read_sends_get_and_keeps_shared_secret (serverWorld mockHandler) testResource testState []
      ⟨[], some testState⟩ (by decide) rfl).1,
    (Read_sends_get_and_keeps_shared_secret (serverWorld mockHandler) testResource testState []
      ⟨[], some testState⟩ (by decide) rfl).2 getReply
      ⟨"webhook123", "client123", "https://example.com/webhook", some [1, 2]⟩ rfl rfl⟩

/-- C5. `WebhookResource.Update`, once the plan `p` is read without error and
the request is built: exactly one request is sent, a PATCH to `baseURL`
followed by `/webhook-endpoints/` and the id of `p`, whose JSON body has
exactly the members `url` and `sharedSecret` holding the values of the plan
(no `clientId`, no `types`); and when the response has status 200, whatever
its body, the state written is `p` in every attribute and no diagnostic is
added. -/
theorem Update_sends_patch_and_writes_plan (w : World) (r : WebhookResource)
    (p : WebhookResourceModel) (getDiags : List Diagnostic) (resp : ResourceResponse)
    (hE : HasError (resp.Diagnostics ++ getDiags) = false)
    (hN : w.newRequestError "PATCH"
      (r.client.baseURL ++ "/webhook-endpoints/" ++ p.ID.ValueString) = none) :
    (r.Update w p getDiags resp).sent =
      [⟨"PATCH", r.client.baseURL ++ "/webhook-endpoints/" ++ p.ID.ValueString,
        ⟨[("Authorization", ["Bearer " ++ r.client.accessToken]),
          ("Content-Type", ["application/json"])]⟩,
        Body.json [("url", JsonValue.str p.URL.ValueString),
          ("sharedSecret", JsonValue.str p.SharedSecret.ValueString)]⟩] ∧
    ∀ (body : String),
      w.Do ⟨"PATCH", r.client.baseURL ++ "/webhook-endpoints/" ++ p.ID.ValueString,
        ⟨[("Authorization", ["Bearer " ++ r.client.accessToken]),
          ("Content-Type", ["application/json"])]⟩,
        Body.json [("url", JsonValue.str p.URL.ValueString),
          ("sharedSecret", JsonValue.str p.SharedSecret.ValueString)]⟩ =
          Except.ok ⟨200, body⟩ →
      (r.Update w p getDiags resp).State = some p ∧
      (r.Update w p getDiags resp).Diagnostics = resp.Diagnostics ++ getDiags ∧
      HasError (r.Update w p getDiags resp).Diagnostics = false := by
  have hreq : r.client.authorize ⟨"PATCH",
      r.client.baseURL ++ "/webhook-endpoints/" ++ p.ID.ValueString,
      (⟨[]⟩ : HttpHeader).Set "Content-Type" "application/json", updateBody p⟩ =
      ⟨"PATCH", r.client.baseURL ++ "/webhook-endpoints/" ++ p.ID.ValueString,
        ⟨[("Authorization", ["Bearer " ++ r.client.accessToken]),
          ("Content-Type", ["application/json"])]⟩,
        Body.json [("url", JsonValue.str p.URL.ValueString),
          ("sharedSecret", JsonValue.str p.SharedSecret.ValueString)]⟩ := by
    simp [client.authorize, HttpHeader.Set, updateBody]
  have hs : (r.Update w p getDiags resp).sent =
      [r.client.authorize ⟨"PATCH",
        r.client.baseURL ++ "/webhook-endpoints/" ++ p.ID.ValueString,
        (⟨[]⟩ : HttpHeader).Set "Content-Type" "application/json", updateBody p⟩] := by
    cases hD : w.Do (r.client.authorize ⟨"PATCH",
        r.client.baseURL ++ "/webhook-endpoints/" ++ p.ID.ValueString,
        (⟨[]⟩ : HttpHeader).Set "Content-Type" "application/json", updateBody p⟩)
    · simp [WebhookResource.Update, client.doRequest, hE, hN, hD]
    · rename_i httpResp
      by_cases h200 : httpResp.StatusCode = 200 <;>
        simp [WebhookResource.Update, client.doRequest, hE, hN, hD, h200]
  rw [hreq] at hs
  refine ⟨hs, ?_⟩
  intro body hD
  have hmem : (⟨"PATCH", r.client.baseURL ++ "/webhook-endpoints/" ++ p.ID.ValueString,
        ⟨[("Authorization", ["Bearer " ++ r.client.accessToken]),
          ("Content-Type", ["application/json"])]⟩,
        Body.json [("url", JsonValue.str p.URL.ValueString),
          ("sharedSecret", JsonValue.str p.SharedSecret.ValueString)]⟩ : Request) ∈
      (r.Update w p getDiags resp).sent := by
    rw [hs]
    exact List.mem_singleton.mpr rfl
  rw [Update_reached w r p getDiags resp _ hmem]
  simp [hD, hE]

/-- C5, at the update step of the acceptance test against the mock server,
whose PATCH reply has an empty body: the PATCH carries the new url and secret
only, and the state written is the plan. -/
theorem Update_sends_patch_and_writes_plan_witness :
    (testResource.Update (serverWorld mockHandler)
        ⟨TypesString.Value "webhook123", TypesString.Value "client123",
          TypesString.Value "https://example.com/webhook2", TypesString.Value "secret456",
          some [1, 2]⟩ [] ⟨[], some testState⟩).sent =
      [⟨"PATCH", "http://127.0.0.1:8080/webhook-endpoints/webhook123",
        ⟨[("Authorization", ["Bearer token"]), ("Content-Type", ["application/json"])]⟩,
        Body.json [("url", JsonValue.str "https://example.com/webhook2"),
          ("sharedSecret", JsonValue.str "secret456")]⟩] ∧
    (testResource.Update (serverWorld mockHandler)
        ⟨TypesString.Value "webhook123", TypesString.Value "client123",
          TypesString.Value "https://example.com/webhook2", TypesString.Value "secret456",
          some [1, 2]⟩ [] ⟨[], some testState⟩).State =
      some ⟨TypesString.Value "webhook123", TypesString.Value "client123",
        TypesString.Value "https://example.com/webhook2", TypesString.Value "secret456",
        some [1, 2]⟩ ∧
    (testResource.Update (serverWorld mockHandler)
        ⟨TypesString.Value "webhook123", TypesString.Value "client123",
          TypesString.Value "https://example.com/webhook2", TypesString.Value "secret456",
          some [1, 2]⟩ [] ⟨[], some testState⟩).Diagnostics = [] ∧
    HasError (testResource.Update (serverWorld mockHandler)
        ⟨TypesString.Value "webhook123", TypesString.Value "client123",
          TypesString.Value "https://example.com/webhook2", TypesString.Value "secret456",
          some [1, 2]⟩ [] ⟨[], some testState⟩).Diagnostics = false :=
  ⟨(Update_sends_patch_and_writes_plan (serverWorld mockHandler) testResource
      ⟨TypesString.Value "webhook123", TypesString.Value "client123",
        TypesString.Value "https://example.com/webhook2", TypesString.Value "secret456",
        some [1, 2]⟩ [] ⟨[], some testState⟩ (by decide) rfl).1,
    (Update_sends_patch_and_writes_plan (serverWorld mockHandler) testResource
      ⟨TypesString.Value "webhook123", TypesString.Value "client123",
        TypesString.Value "https://example.com/webhook2", TypesString.Value "secret456",
        some [1, 2]⟩ [] ⟨[], some testState⟩ (by decide) rfl).2 "" rfl⟩

/-! ### Import -/

theorem Create_state_some (w : World) (r : WebhookResource)
    (p : WebhookResourceModel) (getDiags : List Diagnostic) (diags : List Diagnostic)
    (s : WebhookResourceModel)
    (h : (r.Create w p getDiags ⟨diags, none⟩).State = some s) :
    ∃ i, s = ⟨TypesString.Value i, p.ClientID, p.URL, p.SharedSecret, p.Types⟩ := by
  cases hE : HasError (diags ++ getDiags)
  · cases hN : w.newRequestError "POST" (r.client.baseURL ++ "/webhook-endpoints")
    · cases hD : w.Do (r.client.authorize ⟨"POST", r.client.baseURL ++ "/webhook-endpoints",
          (⟨[]⟩ : HttpHeader).Set "Content-Type" "application/json", createBody p⟩)
      · simp [WebhookResource.Create, client.doRequest, hE, hN, hD] at h
      · rename_i httpResp
        by_cases h200 : httpResp.StatusCode = 200
        · cases hJ : w.decodeCreate httpResp.Body with
          | error err => simp [WebhookResource.Create, client.doRequest, hE, hN, hD, h200, hJ] at h
          | ok b =>
            simp [WebhookResource.Create, client.doRequest, hE, hN, hD, h200, hJ, StringValue] at h
            exact ⟨b.ID, h.symm⟩
        · simp [WebhookResource.Create, client.doRequest, hE, hN, hD, h200] at h
    · simp [WebhookResource.Create, client.doRequest, hE, hN] at h
  · simp [WebhookResource.Create, client.doRequest, hE] at h

/-- C6.  Import round trip.  Let `Create` of a plan `p` write the state `s`,
and let the server answer the GET for the id of `s` with status 200 and a body
that decodes to `b`.  Then the state after `ImportState` with that id followed
by a refresh, and the state after the `Create` followed by a refresh, both
exist and agree in id, client id, url and types, all four taken from `b`; the
shared secret is that of the plan after `Create` and null after the import.
(Nothing is required of `b`: the agreement holds whatever the server
returns.) -/
theorem refresh_after_import_agrees (w : World) (r : WebhookResource)
    (p s : WebhookResourceModel) (body : String) (b : ReadWebhookResp)
    (hcreate : (r.Create w p [] ⟨[], none⟩).State = some s)
    (hN : w.newRequestError "GET"
      (r.client.baseURL ++ "/webhook-endpoints/" ++ s.ID.ValueString) = none)
    (hD : w.Do ⟨"GET", r.client.baseURL ++ "/webhook-endpoints/" ++ s.ID.ValueString,
        ⟨[("Authorization", ["Bearer " ++ r.client.accessToken])]⟩, Body.none⟩ =
          Except.ok ⟨200, body⟩)
    (hJ : w.decodeRead body = Except.ok b) :
    ∃ sCreate sImport,
      (r.refresh w s).State = some sCreate ∧
      (r.importThenRefresh w s.ID.ValueString).State = some sImport ∧
      sCreate.ID = sImport.ID ∧ sCreate.ClientID = sImport.ClientID ∧
      sCreate.URL = sImport.URL ∧ sCreate.Types = sImport.Types ∧
      sCreate.ID = TypesString.Value b.ID ∧ sCreate.ClientID = TypesString.Value b.ClientID ∧
      sCreate.URL = TypesString.Value b.URL ∧ sCreate.Types = b.Types ∧
      sCreate.SharedSecret = p.SharedSecret ∧ sImport.SharedSecret = TypesString.Null := by
  obtain ⟨i, rfl⟩ := Create_state_some w r p [] [] s hcreate
  have hA := (Read_request_and_state w r
    ⟨TypesString.Value i, p.ClientID, p.URL, p.SharedSecret, p.Types⟩ []
    ⟨[], some ⟨TypesString.Value i, p.ClientID, p.URL, p.SharedSecret, p.Types⟩⟩
    (by simp [HasError]) hN).2 body b hD hJ
  have hB := (Read_request_and_state w r
    ⟨TypesString.Value i, TypesString.Null, TypesString.Null, TypesString.Null, none⟩ []
    ⟨[], some ⟨TypesString.Value i, TypesString.Null, TypesString.Null, TypesString.Null, none⟩⟩
    (by simp [HasError]) hN).2 body b hD hJ
  refine ⟨⟨TypesString.Value b.ID, TypesString.Value b.ClientID, TypesString.Value b.URL,
      p.SharedSecret, b.Types⟩,
    ⟨TypesString.Value b.ID, TypesString.Value b.ClientID, TypesString.Value b.URL,
      TypesString.Null, b.Types⟩,
    hA.1, ?_, rfl, rfl, rfl, rfl, rfl, rfl, rfl, rfl, rfl, rfl⟩
  simpa [WebhookResource.importThenRefresh, WebhookResource.ImportState,
    WebhookResource.refresh, nullState, StringValue, TypesString.ValueString] using hB.1

/-- C6, at the acceptance test against the mock server: after the first step,
the import of `webhook123` followed by a refresh gives the state of the
refresh after `Create`, but for the shared secret. -/
theorem refresh_after_import_agrees_witness :
    ∃ sCreate sImport,
      (testResource.refresh (serverWorld mockHandler) testState).State = some sCreate ∧
      (testResource.importThenRefresh (serverWorld mockHandler)
        testState.ID.ValueString).State = some sImport ∧
      sCreate.ID = sImport.ID ∧ sCreate.ClientID = sImport.ClientID ∧
      sCreate.URL = sImport.URL ∧ sCreate.Types = sImport.Types ∧
      sCreate.ID = TypesString.Value "webhook123" ∧
      sCreate.ClientID = TypesString.Value "client123" ∧
      sCreate.URL = TypesString.Value "https://example.com/webhook" ∧
      sCreate.Types = some [1, 2] ∧
      sCreate.SharedSecret = testPlan.SharedSecret ∧ sImport.SharedSecret = TypesString.Null :=
  refresh_after_import_agrees (serverWorld mockHandler) testResource testPlan
    testState getReply
    ⟨"webhook123", "client123", "https://example.com/webhook", some [1, 2]⟩
    (by decide) rfl rfl rfl

/-! ### The client -/

theorem authRequest_eq (c : client) :
    c.authRequest =
      ⟨"POST", c.baseURL ++ "/auth",
        ⟨[("Content-Type", ["application/x-www-form-urlencoded"])]⟩,
        Body.form [("client_id", c.clientID), ("client_secret", c.clientSecret),
          ("grant_type", "client_credentials")]⟩ := by
  simp [client.authRequest, Values.Set, Values.Encode, HttpHeader.Add, HttpHeader.Values,
    List.insertionSort, List.orderedInsert]
  split_ifs with h1 h2 <;>
    first
    | exact absurd h1 (by decide)
    | exact absurd h2 (by decide)
    | simp

theorem authorize_header (c : client) (req : Request) :
    (c.authorize req).Header.Values "Authorization" = some ["Bearer " ++ c.accessToken] ∧
    (c.authorize req).Header.entries.filter (fun e => e.1 == "Authorization") =
      [("Authorization", ["Bearer " ++ c.accessToken])] ∧
    (∀ key, key ≠ "Authorization" →
      (c.authorize req).Header.Values key = req.Header.Values key) ∧
    (c.authorize req).Method = req.Method ∧ (c.authorize req).URL = req.URL ∧
    (c.authorize req).Body = req.Body := by
  refine ⟨?_, ?_, ?_, rfl, rfl, rfl⟩
  · simp [client.authorize, HttpHeader.Set, HttpHeader.Values]
  · simp [client.authorize, HttpHeader.Set, List.filter_filter]
  · intro key hk
    have hk2 : ("Authorization" == key) = false :=
      beq_eq_false_iff_ne.mpr (Ne.symm hk)
    have hp : (fun a : String × List String =>
        decide ((a.1 != "Authorization") = true ∧ (a.1 == key) = true)) =
        (fun e => e.1 == key) := by
      funext a
      rcases a with ⟨a1, a2⟩
      by_cases ha : a1 = key
      · subst ha
        simp [hk]
      · simp [ha]
    simp only [client.authorize, HttpHeader.Set, HttpHeader.Values, List.find?_cons, hk2,
      List.find?_filter, hp]

theorem getAccessToken_sent (w : World) (c : client)
    (hURL : w.newRequestError "POST" (c.baseURL ++ "/auth") = none) :
    (c.getAccessToken w).sent = [c.authRequest] := by
  cases hD : w.Do c.authRequest with
  | error err => simp [client.getAccessToken, hURL, hD]
  | ok resp =>
    by_cases h200 : resp.StatusCode = 200 <;> cases hJ : w.decodeToken resp.Body <;>
      simp [client.getAccessToken, hURL, hD, h200, hJ]

/-- C9.  Token fetch.  For every client (id, secret, base URL) whose auth URL
`http.NewRequest` accepts, `getAccessToken` sends exactly one request, a POST
to `baseURL` followed by `/auth` with content type
`application/x-www-form-urlencoded` and the form body `client_id`,
`client_secret`, `grant_type=client_credentials`.  It returns no error exactly
when the transport succeeds, the status is 200 and the body decodes; the token
stored is then the decoded `access_token`, whatever it is, the empty string
included (the zero value of the field, for a body without that member), and
every request that `doRequest` sends afterwards carries exactly one
`Authorization` header, `Bearer ` followed by that token, in place of any it
had, with everything else of the request unchanged.  And `newClient` returns
the error and no client when `getAccessToken` returns an error, the client
with the token stored otherwise. -/
theorem getAccessToken_fetches_and_stores_token (w : World) (c : client)
    (hURL : w.newRequestError "POST" (c.baseURL ++ "/auth") = none) :
    (c.getAccessToken w).sent =
      [⟨"POST", c.baseURL ++ "/auth",
        ⟨[("Content-Type", ["application/x-www-form-urlencoded"])]⟩,
        Body.form [("client_id", c.clientID), ("client_secret", c.clientSecret),
          ("grant_type", "client_credentials")]⟩] ∧
    ((c.getAccessToken w).err = none ↔
      ∃ resp t,
        w.Do ⟨"POST", c.baseURL ++ "/auth",
          ⟨[("Content-Type", ["application/x-www-form-urlencoded"])]⟩,
          Body.form [("client_id", c.clientID), ("client_secret", c.clientSecret),
            ("grant_type", "client_credentials")]⟩ = Except.ok resp ∧
        resp.StatusCode = 200 ∧ w.decodeToken resp.Body = Except.ok t) ∧
    (∀ resp t,
      w.Do ⟨"POST", c.baseURL ++ "/auth",
        ⟨[("Content-Type", ["application/x-www-form-urlencoded"])]⟩,
        Body.form [("client_id", c.clientID), ("client_secret", c.clientSecret),
          ("grant_type", "client_credentials")]⟩ = Except.ok resp →
      resp.StatusCode = 200 → w.decodeToken resp.Body = Except.ok t →
      (c.getAccessToken w).err = none ∧
      (c.getAccessToken w).c = ⟨c.clientID, c.clientSecret, c.baseURL, t.AccessToken⟩ ∧
      ∀ req : Request,
        (((c.getAccessToken w).c.doRequest w req).1.Header.Values "Authorization" =
          some ["Bearer " ++ t.AccessToken]) ∧
        (((c.getAccessToken w).c.doRequest w req).1.Header.entries.filter
            (fun e => e.1 == "Authorization") =
          [("Authorization", ["Bearer " ++ t.AccessToken])]) ∧
        (∀ key, key ≠ "Authorization" →
          ((c.getAccessToken w).c.doRequest w req).1.Header.Values key =
            req.Header.Values key) ∧
        ((c.getAccessToken w).c.doRequest w req).1.Method = req.Method ∧
        ((c.getAccessToken w).c.doRequest w req).1.URL = req.URL ∧
        ((c.getAccessToken w).c.doRequest w req).1.Body = req.Body ∧
        ((c.getAccessToken w).c.doRequest w req).2 =
          w.Do ((c.getAccessToken w).c.doRequest w req).1) ∧
    (∀ clientID clientSecret : String,
      (newClient w clientID clientSecret).1 =
        match ((⟨clientID, clientSecret, "https://connect.fitogram.pro", ""⟩ :
            client).getAccessToken w).err with
        | some err => Except.error err
        | none => Except.ok ((⟨clientID, clientSecret, "https://connect.fitogram.pro", ""⟩ :
            client).getAccessToken w).c) := by
  have hs := getAccessToken_sent w c hURL
  rw [authRequest_eq] at hs
  refine ⟨hs, ?_, ?_, ?_⟩
  · rw [← authRequest_eq]
    cases hD : w.Do c.authRequest with
    | error err => simp [client.getAccessToken, hURL, hD]
    | ok resp =>
      by_cases h200 : resp.StatusCode = 200 <;> cases hJ : w.decodeToken resp.Body <;>
        simp [client.getAccessToken, hURL, hD, h200, hJ]
  · intro resp t hD h200 hJ
    rw [← authRequest_eq] at hD
    have hc : (c.getAccessToken w).c = ⟨c.clientID, c.clientSecret, c.baseURL, t.AccessToken⟩ := by
      simp [client.getAccessToken, hURL, hD, h200, hJ]
    refine ⟨by simp [client.getAccessToken, hURL, hD, h200, hJ], hc, ?_⟩
    intro req
    rw [hc]
    have h := authorize_header ⟨c.clientID, c.clientSecret, c.baseURL, t.AccessToken⟩ req
    exact ⟨h.1, h.2.1, h.2.2.1, h.2.2.2.1, h.2.2.2.2.1, h.2.2.2.2.2, rfl⟩
  · intro clientID clientSecret
    unfold newClient
    cases hE : ((⟨clientID, clientSecret, "https://connect.fitogram.pro", ""⟩ :
        client).getAccessToken w).err <;> simp [hE]

/-- C9, at the mock server of the acceptance test, whose reply to every POST
is the object with the one member `id`: the token fetch returns no error, the
token stored is the empty string, and a request sent afterwards carries
`Authorization: Bearer ` with nothing after the blank. -/
theorem getAccessToken_fetches_and_stores_token_witness :
    (client.getAccessToken (serverWorld mockHandler)
        ⟨"client123", "secret", "http://127.0.0.1:8080", ""⟩).sent =
      [⟨"POST", "http://127.0.0.1:8080/auth",
        ⟨[("Content-Type", ["application/x-www-form-urlencoded"])]⟩,
        Body.form [("client_id", "client123"), ("client_secret", "secret"),
          ("grant_type", "client_credentials")]⟩] ∧
    (client.getAccessToken (serverWorld mockHandler)
        ⟨"client123", "secret", "http://127.0.0.1:8080", ""⟩).err = none ∧
    (client.getAccessToken (serverWorld mockHandler)
        ⟨"client123", "secret", "http://127.0.0.1:8080", ""⟩).c =
      ⟨"client123", "secret", "http://127.0.0.1:8080", ""⟩ ∧
    ((client.getAccessToken (serverWorld mockHandler)
        ⟨"client123", "secret", "http://127.0.0.1:8080", ""⟩).c.doRequest
          (serverWorld mockHandler)
          ⟨"GET", "http://127.0.0.1:8080/webhook-endpoints/webhook123",
            ⟨[("Authorization", ["Basic abc"])]⟩, Body.none⟩).1.Header.entries.filter
        (fun e => e.1 == "Authorization") =
      [("Authorization", ["Bearer " ++ ""])] :=
  ⟨(getAccessToken_fetches_and_stores_token (serverWorld mockHandler)
      ⟨"client123", "secret", "http://127.0.0.1:8080", ""⟩ rfl).1,
    ((getAccessToken_fetches_and_stores_token (serverWorld mockHandler)
      ⟨"client123", "secret", "http://127.0.0.1:8080", ""⟩ rfl).2.2.1
        ⟨200, postReply⟩ ⟨""⟩ rfl rfl rfl).1,
    ((getAccessToken_fetches_and_stores_token (serverWorld mockHandler)
      ⟨"client123", "secret", "http://127.0.0.1:8080", ""⟩ rfl).2.2.1
        ⟨200, postReply⟩ ⟨""⟩ rfl rfl rfl).2.1,
    (((getAccessToken_fetches_and_stores_token (serverWorld mockHandler)
      ⟨"client123", "secret", "http://127.0.0.1:8080", ""⟩ rfl).2.2.1
        ⟨200, postReply⟩ ⟨""⟩ rfl rfl rfl).2.2
        ⟨"GET", "http://127.0.0.1:8080/webhook-endpoints/webhook123",
          ⟨[("Authorization", ["Basic abc"])]⟩, Body.none⟩).2.1⟩

/-! ### The schemas -/

/-- C7.  The code does not do what the acceptance test configures.  The schema
of the provider has the attributes `client_id` and `client_secret` only, both
required, so a provider block that sets only `base_url` is not accepted; and
whatever the configuration, `newClient` sends its one request to
`https://connect.fitogram.pro/auth` and returns a client with that fixed base
URL, to which every webhook request then goes.  At the mock server, a
configuration without client id and secret has its auth request sent to that
fixed host, not to the server of the test. -/
theorem provider_has_no_base_url :
    UrbanSportsClubProvider.Schema.Attributes.map (fun e => (e.1, e.2.Required)) =
      [("client_id", true), ("client_secret", true)] ∧
    UrbanSportsClubProvider.Schema.attr "base_url" = none ∧
    UrbanSportsClubProvider.Schema.accepts ["base_url"] = false ∧
    UrbanSportsClubProvider.Schema.accepts ["client_id", "client_secret"] = true ∧
    (∀ (w : World) (clientID clientSecret : String),
      ((newClient w clientID clientSecret).2 = [] ∨
        (newClient w clientID clientSecret).2 =
          [⟨"POST", "https://connect.fitogram.pro/auth",
            ⟨[("Content-Type", ["application/x-www-form-urlencoded"])]⟩,
            Body.form [("client_id", clientID), ("client_secret", clientSecret),
              ("grant_type", "client_credentials")]⟩]) ∧
      (match (newClient w clientID clientSecret).1 with
        | Except.ok c => c.baseURL = "https://connect.fitogram.pro"
        | Except.error _ => True)) ∧
    (UrbanSportsClubProvider.Configure (serverWorld mockHandler)
        ⟨TypesString.Null, TypesString.Null⟩ [] ⟨[], none, none⟩).2 =
      [⟨"POST", "https://connect.fitogram.pro/auth",
        ⟨[("Content-Type", ["application/x-www-form-urlencoded"])]⟩,
        Body.form [("client_id", ""), ("client_secret", ""),
          ("grant_type", "client_credentials")]⟩] := by
  refine ⟨by decide, by decide, by decide, by decide, ?_, ?_⟩
  swap
  · have ha := authRequest_eq ⟨"", "", "https://connect.fitogram.pro", ""⟩
    simp [UrbanSportsClubProvider.Configure, newClient, client.getAccessToken, serverWorld,
      HasError, mockHandler, TypesString.ValueString, ha, postReply]
  intro w clientID clientSecret
  have ha : client.authRequest ⟨clientID, clientSecret, "https://connect.fitogram.pro", ""⟩ =
      ⟨"POST", "https://connect.fitogram.pro/auth",
        ⟨[("Content-Type", ["application/x-www-form-urlencoded"])]⟩,
        Body.form [("client_id", clientID), ("client_secret", clientSecret),
          ("grant_type", "client_credentials")]⟩ := by
    rw [authRequest_eq]
    rfl
  cases hN : w.newRequestError "POST" "https://connect.fitogram.pro/auth" with
  | some err => simp [newClient, client.getAccessToken, hN]
  | none =>
    cases hD : w.Do ⟨"POST", "https://connect.fitogram.pro/auth",
        ⟨[("Content-Type", ["application/x-www-form-urlencoded"])]⟩,
        Body.form [("client_id", clientID), ("client_secret", clientSecret),
          ("grant_type", "client_credentials")]⟩ with
    | error err => simp [newClient, client.getAccessToken, hN, hD, ha]
    | ok resp =>
      by_cases h200 : resp.StatusCode = 200 <;> cases hJ : w.decodeToken resp.Body <;>
        simp [newClient, client.getAccessToken, hN, hD, h200, hJ, ha]

/-- C8.  `WebhookResource.Schema` has exactly five attributes: `id` (string,
computed, not required), `client_id` (required string, plan modifier
`RequiresReplace`), `url` (required string, no plan modifier),
`shared_secret` (required string, sensitive, no plan modifier) and `types`
(required list of `Int64`, plan modifier `RequiresReplace`); `shared_secret`
is the only sensitive attribute, and `client_id` and `types` are the only
ones that force replacement. -/
theorem Schema_has_five_attributes :
    WebhookResource.Schema.Attributes.map (fun e => e.1) =
      ["id", "client_id", "url", "shared_secret", "types"] ∧
    WebhookResource.Schema.attr "id" =
      some ⟨AttributeKind.StringAttribute, false, false, true, false, "",
        [PlanModifier.UseStateForUnknown]⟩ ∧
    WebhookResource.Schema.attr "client_id" =
      some ⟨AttributeKind.StringAttribute, true, false, false, false,
        "Client ID for the webhook", [PlanModifier.RequiresReplace]⟩ ∧
    WebhookResource.Schema.attr "url" =
      some ⟨AttributeKind.StringAttribute, true, false, false, false,
        "URL for the webhook endpoint", []⟩ ∧
    WebhookResource.Schema.attr "shared_secret" =
      some ⟨AttributeKind.StringAttribute, true, false, false, true,
        "Shared secret for webhook authentication", []⟩ ∧
    WebhookResource.Schema.attr "types" =
      some ⟨AttributeKind.ListAttribute ElementType.Int64Type, true, false, false, false,
        "Types of webhooks to subscribe to", [PlanModifier.RequiresReplace]⟩ ∧
    (∀ e ∈ WebhookResource.Schema.Attributes,
      (e.2.Sensitive = true ↔ e.1 = "shared_secret") ∧
      (PlanModifier.RequiresReplace ∈ e.2.PlanModifiers ↔
        e.1 = "client_id" ∨ e.1 = "types") ∧
      (e.2.Computed = true ↔ e.1 = "id") ∧
      (e.2.Required = true ↔ e.1 ≠ "id")) := by
  decide
